import Mathlib

/-!
Shallow embedding of the cluster-detector registry of this repository
(src/unnamed/part_000, class DetectorRegistry) and proofs of the spec
claims about it.

The embedding fixes a cluster type `C` and a detected-value type `V`.
Failure of an asynchronous task (a rejected promise) is modelled with
`Except String`; a task that resolves is `Except.ok`.
-/

set_option autoImplicit false

namespace Lens

variable {C V : Type} {C₁ C₂ : Type}

/-- Modelled from the spec: DetectionResult is an immutable value carrying a
confidence/accuracy score alongside the detected value
(spec 3, the file base-cluster-detector is not under src). Accuracy is the
ordered numeric confidence; it is modelled as `Int`. -/
structure ClusterDetectionResult (V : Type) where
  value : V
  accuracy : Int
deriving DecidableEq

/-- Modelled from the spec: a detector is identified by a string `key` and
exposes one asynchronous operation `detect` that returns an optional
DetectionResult or fails (spec 3 and 4.1; the file base-cluster-detector is
not under src). The instance is already bound to its cluster, so `detect`
takes no argument here. -/
structure BaseClusterDetector (V : Type) where
  key : String
  detect : Except String (Option (ClusterDetectionResult V))

/-- A detector factory, `new DetectorClass(cluster)` in part_000 line 28:
given a cluster it constructs a detector instance, and the construction
itself may throw. -/
abbrev ClusterDetectionConstructor (C V : Type) : Type :=
  C → Except String (BaseClusterDetector V)

/-- The registry of part_000 line 31: an ordered collection of detector
factories (the mobx observable array is modelled as a `List`, iteration
order being registration order). -/
structure DetectorRegistry (C V : Type) where
  registry : List (ClusterDetectionConstructor C V)

/-- part_000 lines 33-37: `add` pushes the factory at the end of the
registry and returns the registry for chaining (mutation is modelled by
returning the updated registry). -/
def DetectorRegistry.add (self : DetectorRegistry C V)
    (detectorClass : ClusterDetectionConstructor C V) : DetectorRegistry C V :=
  { self with registry := self.registry ++ [detectorClass] }

/-- The per-factory asynchronous task of part_000 lines 41-45:
`async DetectorClass => { const detector = new DetectorClass(cluster);
return [detector.key, await detector.detect()]; }`. A throw during
construction or a rejection of `detect` makes the whole task reject,
which `Except` bind captures. -/
def runDetection (DetectorClass : ClusterDetectionConstructor C V)
    (cluster : C) : Except String (String × Option (ClusterDetectionResult V)) := do
  let detector ← DetectorClass cluster
  let data ← detector.detect
  pure (detector.key, data)

/-- The internal `results` value of part_000 line 40 is a JavaScript `Map`
from string key to ClusterDetectionResult: an insertion-ordered collection
of entries with unique keys, modelled as an association list. -/
abbrev JsMap (V : Type) : Type := List (String × ClusterDetectionResult V)

/-- JavaScript `Map.prototype.has`. -/
def mapHas (m : JsMap V) (k : String) : Bool :=
  m.any (fun p => p.1 == k)

/-- JavaScript `Map.prototype.get` (`none` models `undefined`). -/
def mapGet (m : JsMap V) (k : String) : Option (ClusterDetectionResult V) :=
  (m.find? (fun p => p.1 == k)).map Prod.snd

/-- JavaScript `Map.prototype.set`: updates the entry in place when the key
is present, appends a new entry otherwise. -/
def mapSet (m : JsMap V) (k : String) (v : ClusterDetectionResult V) : JsMap V :=
  if mapHas m k then m.map (fun p => if p.1 == k then (k, v) else p)
  else m ++ [(k, v)]

/-- The guard `results.get(key).accuracy <= data.accuracy` of part_000
line 53; it is only ever evaluated when `results.has(key)` holds, so the
`none` branch is unreachable there. -/
def storedAccuracyLe (results : JsMap V) (k : String) (a : Int) : Bool :=
  match mapGet results k with
  | some stored => stored.accuracy ≤ a
  | none => false

/-- One iteration of the `for (const detection of detections)` loop of
part_000 lines 47-60: a rejected task is swallowed by `catch {}`; a
resolved task contributes only when `data` is truthy and either the key is
absent or the stored accuracy is `<=` the new accuracy. -/
def mergeDetection (results : JsMap V)
    (detection : Except String (String × Option (ClusterDetectionResult V))) :
    JsMap V :=
  match detection with
  | .error _ => results
  | .ok (key, data) =>
    match data with
    | none => results
    | some d =>
      if !mapHas results key || storedAccuracyLe results key d.accuracy then
        mapSet results key d
      else
        results

/-- The whole fold of part_000 lines 47-60, starting from the empty `Map`
of line 40 and awaiting the tasks in registration order. -/
def foldDetections
    (detections : List (Except String (String × Option (ClusterDetectionResult V)))) :
    JsMap V :=
  detections.foldl mergeDetection []

/-- The internal best-result map produced by `detectForCluster` for a given
registry and cluster, right before the projection of part_000 lines 62-67. -/
def DetectorRegistry.detectionResults (self : DetectorRegistry C V)
    (cluster : C) : JsMap V :=
  foldDetections (self.registry.map (fun DetectorClass => runDetection DetectorClass cluster))

/-- JavaScript `Object.entries` applied to a `Map` instance (part_000
line 64 applies it to the `Map` named `results`). A `Map` keeps its entries
in internal slots, not as own enumerable string-keyed properties, so
`Object.entries` of any `Map` is the empty array. -/
def objectEntriesOfMap (_results : JsMap V) :
    List (String × ClusterDetectionResult V) :=
  []

/-- The final metadata record: a flat mapping from string key to value,
modelled as the ordered entry list that `Object.fromEntries` receives. -/
abbrev ClusterMetadata (V : Type) : Type := List (String × V)

/-- part_000 lines 39-68: run all detector tasks, fold them in registration
order into the internal `Map`, then project via
`Object.fromEntries(iter.map(Object.entries(results), ([key, { value }]) => [key, value]))`
(`iter.map`, from common/utils which is not under src, maps an iterable
element-wise and is modelled as `List.map`). -/
def DetectorRegistry.detectForCluster (self : DetectorRegistry C V)
    (cluster : C) : ClusterMetadata V :=
  let results := self.detectionResults cluster
  (objectEntriesOfMap results).map (fun p => (p.1, p.2.value))

/-! Concrete detectors used in evaluations, taken from the scenarios of
spec 8. All live over `C := Unit` and `V := String`. -/

/-- Scenario detector A: key "distribution", value "kind", accuracy 1. -/
def detDistKind : ClusterDetectionConstructor Unit String :=
  fun _ => .ok { key := "distribution", detect := .ok (some { value := "kind", accuracy := 1 }) }

/-- Scenario detector B: key "distribution", value "k3s", accuracy 5. -/
def detDistK3s : ClusterDetectionConstructor Unit String :=
  fun _ => .ok { key := "distribution", detect := .ok (some { value := "k3s", accuracy := 5 }) }

/-- Scenario detector: key "cloudProvider", value "aws", accuracy 3. -/
def detCloudAws : ClusterDetectionConstructor Unit String :=
  fun _ => .ok { key := "cloudProvider", detect := .ok (some { value := "aws", accuracy := 3 }) }

/-- Scenario detector: key "cloudProvider", value "gcp", accuracy 3. -/
def detCloudGcp : ClusterDetectionConstructor Unit String :=
  fun _ => .ok { key := "cloudProvider", detect := .ok (some { value := "gcp", accuracy := 3 }) }

/-- Scenario detector whose `detect` rejects. -/
def detCloudFail : ClusterDetectionConstructor Unit String :=
  fun _ => .ok { key := "cloudProvider", detect := .error "probe failed" }

/-- Same outcome as `detDistKind`, but bound to a different cluster type,
used to exercise determinism across distinct runs. -/
def detDistKindBool : ClusterDetectionConstructor Bool String :=
  fun _ => .ok { key := "distribution", detect := .ok (some { value := "kind", accuracy := 1 }) }

/-- A factory that throws while constructing its detector instance. -/
def ctorThrow : ClusterDetectionConstructor Unit String :=
  fun _ => .error "boom"

/-! Helper lemmas shared by several proofs. -/

/-- A rejected task leaves the running map unchanged (the `catch {}` of
part_000 line 59). -/
theorem mergeDetection_error (results : JsMap V) (e : String) :
    mergeDetection results (.error e) = results :=
  rfl

/-- Folding a list of tasks that all rejected changes nothing. -/
theorem foldl_mergeDetection_all_error
    (l : List (Except String (String × Option (ClusterDetectionResult V))))
    (acc : JsMap V) (h : ∀ d ∈ l, ∃ e, d = Except.error e) :
    l.foldl mergeDetection acc = acc := by
  induction l generalizing acc with
  | nil => rfl
  | cons d l ih =>
    obtain ⟨e, he⟩ := h d (List.mem_cons_self d l)
    subst he
    rw [List.foldl_cons, mergeDetection_error]
    exact ih acc (fun x hx => h x (List.mem_cons_of_mem _ hx))

/-! The claims. -/

/-- C1: the claim says a key is present in the mapping returned by
`detectForCluster` iff at least one registered detector had that key and
its detect operation succeeded with a result. The code violates the
right-to-left direction: here a single detector succeeds with key
"distribution" and the internal map holds its result, yet the returned
mapping is empty, because part_000 line 64 applies `Object.entries` to a
`Map`. -/
theorem detectForCluster_drops_successful_key :
    runDetection detDistKind () =
      Except.ok ("distribution", some { value := "kind", accuracy := 1 }) ∧
    (DetectorRegistry.mk [detDistKind]).detectionResults () =
      [("distribution", { value := "kind", accuracy := 1 })] ∧
    (DetectorRegistry.mk [detDistKind]).detectForCluster () = [] :=
  ⟨rfl, rfl, rfl⟩

/-- C2: for every registry and cluster, the mapping returned by
`detectForCluster` is empty, because the projection enumerates the own
enumerable properties of a `Map` (`Object.entries` of a `Map` is always
empty), so the internal best-result map is never reflected in the
returned value. -/
theorem detectForCluster_always_empty (reg : DetectorRegistry C V)
    (cluster : C) :
    reg.detectForCluster cluster = [] :=
  rfl

/-- C3: the claim says that with detectors A (key "distribution", value
"kind", accuracy 1) and B (key "distribution", value "k3s", accuracy 5)
registered in that order, `detectForCluster` yields the mapping
sending "distribution" to "k3s". The internal fold does select the
higher-accuracy result "k3s", but the returned mapping is empty. -/
theorem scenario1_accuracy_ordering_output_empty :
    (((DetectorRegistry.mk []).add detDistKind).add detDistK3s).detectionResults () =
      [("distribution", { value := "k3s", accuracy := 5 })] ∧
    (((DetectorRegistry.mk []).add detDistKind).add detDistK3s).detectForCluster () = [] :=
  ⟨rfl, rfl⟩

/-- C4: the claim says that on an exact accuracy tie the later-registered
value is the value at the key in the returned mapping. The internal fold
does replace on `<=`, keeping the later-registered "gcp" over "aws" at
equal accuracy 3, but the returned mapping is empty, so no key has any
value in it. -/
theorem scenario3_tie_break_output_empty :
    (((DetectorRegistry.mk []).add detCloudAws).add detCloudGcp).detectionResults () =
      [("cloudProvider", { value := "gcp", accuracy := 3 })] ∧
    (((DetectorRegistry.mk []).add detCloudAws).add detCloudGcp).detectForCluster () = [] :=
  ⟨rfl, rfl⟩

/-- C5: the claim says a failing detector must not prevent other
successful contributions from appearing in the returned mapping, and in
particular A (key "cloudProvider", value "aws", accuracy 3) plus a
failing B yields the mapping sending "cloudProvider" to "aws". The
failure is indeed absorbed and the internal map keeps the "aws" result,
but the returned mapping is empty. -/
theorem scenario2_failure_tolerance_output_empty :
    (((DetectorRegistry.mk []).add detCloudAws).add detCloudFail).detectionResults () =
      [("cloudProvider", { value := "aws", accuracy := 3 })] ∧
    (((DetectorRegistry.mk []).add detCloudAws).add detCloudFail).detectForCluster () = [] :=
  ⟨rfl, rfl⟩

/-- C6: `detectForCluster` never fails as a whole (in this embedding it is
a total function, with every per-task failure absorbed by the fold): even
when every registered detector task rejects, the internal map stays empty
and the call returns an empty mapping. -/
theorem detectForCluster_never_fails (reg : DetectorRegistry C V)
    (cluster : C)
    (h : ∀ D ∈ reg.registry, ∃ e, runDetection D cluster = Except.error e) :
    reg.detectionResults cluster = [] ∧ reg.detectForCluster cluster = [] := by
  refine ⟨?_, rfl⟩
  unfold DetectorRegistry.detectionResults foldDetections
  apply foldl_mergeDetection_all_error
  intro d hd
  rw [List.mem_map] at hd
  obtain ⟨D, hD, rfl⟩ := hd
  exact h D hD

/-- Witness for C6 at a concrete input: one registered detector whose
detect rejects. -/
theorem detectForCluster_never_fails_witness :
    (∀ D ∈ (DetectorRegistry.mk [detCloudFail]).registry,
      ∃ e, runDetection D () = Except.error e) ∧
    ((DetectorRegistry.mk [detCloudFail]).detectionResults () = [] ∧
      (DetectorRegistry.mk [detCloudFail]).detectForCluster () = []) := by
  have h : ∀ D ∈ (DetectorRegistry.mk [detCloudFail]).registry,
      ∃ e, runDetection D () = Except.error e := by
    intro D hD
    rw [List.mem_singleton] at hD
    subst hD
    exact ⟨"probe failed", rfl⟩
  exact ⟨h, detectForCluster_never_fails (DetectorRegistry.mk [detCloudFail]) () h⟩

/-- C7: for a registry with no registered factories, `detectForCluster`
returns an empty mapping on any cluster (and the internal map is empty
too). -/
theorem detectForCluster_empty_registry (cluster : C) :
    (DetectorRegistry.mk ([] : List (ClusterDetectionConstructor C V))).detectionResults cluster = [] ∧
    (DetectorRegistry.mk ([] : List (ClusterDetectionConstructor C V))).detectForCluster cluster = [] :=
  ⟨rfl, rfl⟩

/-- C8: the result of a pass is a deterministic function of the ordered
list of per-detector outcomes (key, success or failure, returned result):
two runs whose registries produce, in registration order, the same list of
task outcomes have the same internal best-result map and return equal
mappings. Completion order of the concurrent probes never enters the
semantics: the fold awaits the tasks sequentially in registration order. -/
theorem detectForCluster_deterministic (reg₁ : DetectorRegistry C₁ V)
    (reg₂ : DetectorRegistry C₂ V) (c₁ : C₁) (c₂ : C₂)
    (h : reg₁.registry.map (fun D => runDetection D c₁) =
      reg₂.registry.map (fun D => runDetection D c₂)) :
    reg₁.detectionResults c₁ = reg₂.detectionResults c₂ ∧
    reg₁.detectForCluster c₁ = reg₂.detectForCluster c₂ := by
  constructor
  · unfold DetectorRegistry.detectionResults
    rw [h]
  · rfl

/-- Witness for C8 at a concrete input: two registries over different
cluster types whose single detectors produce the same outcome. -/
theorem detectForCluster_deterministic_witness :
    ((DetectorRegistry.mk [detDistKind]).registry.map (fun D => runDetection D ()) =
      (DetectorRegistry.mk [detDistKindBool]).registry.map (fun D => runDetection D true)) ∧
    ((DetectorRegistry.mk [detDistKind]).detectionResults () =
      (DetectorRegistry.mk [detDistKindBool]).detectionResults true ∧
    (DetectorRegistry.mk [detDistKind]).detectForCluster () =
      (DetectorRegistry.mk [detDistKindBool]).detectForCluster true) :=
  ⟨rfl, detectForCluster_deterministic
    (DetectorRegistry.mk [detDistKind]) (DetectorRegistry.mk [detDistKindBool]) () true rfl⟩

/-- C9: `add` appends exactly the given factory at the end of the ordered
collection, leaving earlier factories and their order unchanged, and the
returned registry is the one further calls chain on; adding the same
factory twice makes that detector run twice in a pass, each run producing
its own independent task outcome in the folded list. -/
theorem add_appends_and_duplicates_run_twice (reg : DetectorRegistry C V)
    (D : ClusterDetectionConstructor C V) (cluster : C) :
    (reg.add D).registry = reg.registry ++ [D] ∧
    ((reg.add D).add D).registry.map (fun K => runDetection K cluster) =
      reg.registry.map (fun K => runDetection K cluster) ++
        [runDetection D cluster, runDetection D cluster] := by
  refine ⟨rfl, ?_⟩
  simp [DetectorRegistry.add]

/-- C10: a factory that throws while constructing its detector rejects its
own task (the construction happens inside the per-detector asynchronous
task), the fold absorbs that rejection exactly like a detection failure,
and every other contribution is unaffected: inserting the failing factory
anywhere in the registry leaves both the internal map and the returned
mapping unchanged. -/
theorem instantiation_failure_isolated
    (pre post : List (ClusterDetectionConstructor C V))
    (F : ClusterDetectionConstructor C V) (cluster : C) (e : String)
    (h : F cluster = Except.error e) :
    runDetection F cluster = Except.error e ∧
    (DetectorRegistry.mk (pre ++ F :: post)).detectionResults cluster =
      (DetectorRegistry.mk (pre ++ post)).detectionResults cluster ∧
    (DetectorRegistry.mk (pre ++ F :: post)).detectForCluster cluster =
      (DetectorRegistry.mk (pre ++ post)).detectForCluster cluster := by
  have h1 : runDetection F cluster = Except.error e := by
    unfold runDetection
    rw [h]
    rfl
  refine ⟨h1, ?_, rfl⟩
  unfold DetectorRegistry.detectionResults foldDetections
  simp only [List.map_append, List.map_cons, List.foldl_append, List.foldl_cons, h1,
    mergeDetection_error]

/-- Witness for C10 at a concrete input: a throwing factory between two
healthy detectors. -/
theorem instantiation_failure_isolated_witness :
    ctorThrow () = Except.error "boom" ∧
    (runDetection ctorThrow () = Except.error "boom" ∧
    (DetectorRegistry.mk ([detCloudAws] ++ ctorThrow :: [detDistKind])).detectionResults () =
      (DetectorRegistry.mk ([detCloudAws] ++ [detDistKind])).detectionResults () ∧
    (DetectorRegistry.mk ([detCloudAws] ++ ctorThrow :: [detDistKind])).detectForCluster () =
      (DetectorRegistry.mk ([detCloudAws] ++ [detDistKind])).detectForCluster ()) :=
  ⟨rfl, instantiation_failure_isolated [detCloudAws] [detDistKind] ctorThrow () "boom" rfl⟩

end Lens
